import Mathlib

/-!
Shallow embedding of the rusqlite-vss vector store (src/store.rs, src/service.rs).

The backing SQLite database is modelled per collection as two keyed tables:
`vtab` models the vss0 virtual table (rowid, point) and `ptab` models the
`{name}_payload` table (rowid, payload TEXT).  Row order models SQLite scan
order (insertion order for these tables).  f32 values are modelled as exact
rationals; the raw-byte codec `vector_to_blob` / `blob_to_vector` in store.rs
is a lossless reinterpretation of the float array, so storage of a vector is
modelled as storing the value itself.  The payload TEXT column stores the
serde_json serialization of `Option<Map<String, Value>>`; `to_string` followed
by `from_str` is a round trip and the literal `null` deserializes to `None`,
so the column is modelled as holding the deserialized value directly (payload
objects are modelled by their string-valued fields, which covers the repo
fixtures).
-/

deriving instance DecidableEq for Except

namespace VecStore

/-- A stored vector: f32 coordinates modelled as exact rationals. -/
abbrev Vec := List ℚ

/-- A JSON payload object (string-valued fields, as in the repo fixtures). -/
abbrev PayloadMap := List (String × String)

/-- service.rs `Point`: id, vector, optional payload. -/
structure Point where
  id : Nat
  vector : Vec
  payload : Option PayloadMap
deriving DecidableEq

/-- service.rs `ScoredPoint`: a point plus its distance score. -/
structure ScoredPoint where
  id : Nat
  vector : Vec
  payload : Option PayloadMap
  score : ℚ
deriving DecidableEq

/-- The SQLite-level errors the store functions can surface. -/
inductive SqlErr where
  /-- the vss0 extension rejects a vector whose length differs from the
  declared dimension (on insert and on vss search). -/
  | dimensionMismatch
  /-- the SQL text `... IN ()` produced by joining an empty id list is a
  syntax error, reported when the statement is prepared. -/
  | emptyInList
  /-- rusqlite QueryReturnedNoRows from query_row. -/
  | noRows
deriving DecidableEq

/-- One collection: the fixed dimension declared at creation, the vss0
virtual table rows and the payload table rows, both keyed by rowid. -/
structure Collection where
  dim : Nat
  vtab : List (Nat × Vec)
  ptab : List (Nat × Option PayloadMap)
deriving DecidableEq

/-- Outcome of a store call as observed by the caller: an Ok value, an Err
of rusqlite::Result, or a panic (an unwrap of an Err inside the function). -/
inductive Outcome (α : Type) where
  | ok (a : α)
  | err (e : SqlErr)
  | panicked (e : SqlErr)
deriving DecidableEq

/-- True exactly when the outcome is an Err result (not Ok, not a panic). -/
def Outcome.isStoreErr {α : Type} : Outcome α → Bool
  | .err _ => true
  | _ => false

/-- SELECT by key from a keyed table (first matching row). -/
def lookupTab {α : Type} : List (Nat × α) → Nat → Option α
  | [], _ => none
  | r :: rest, i => if r.1 = i then some r.2 else lookupTab rest i

/-- Write (key, value) into a keyed table, replacing the row with that key if
present and appending otherwise. -/
def upsertRow {α : Type} : List (Nat × α) → Nat → α → List (Nat × α)
  | [], i, v => [(i, v)]
  | r :: rest, i, v => if r.1 = i then (i, v) :: rest else r :: upsertRow rest i v

/-- DELETE FROM tab WHERE rowid IN (ids). -/
def deleteRows {α : Type} : List (Nat × α) → List Nat → List (Nat × α)
  | [], _ => []
  | r :: rest, ids =>
    if ids.contains r.1 then deleteRows rest ids else r :: deleteRows rest ids

/-- The registry of collections: one (name, collection) pair per created
collection, keyed by the collection name. -/
abbrev Database := List (String × Collection)

/-- Look a collection up by name. -/
def lookupColl : Database → String → Option Collection
  | [], _ => none
  | r :: rest, n => if r.1 = n then some r.2 else lookupColl rest n

/-- store.rs `create_collections`: runs `CREATE VIRTUAL TABLE IF NOT EXISTS
{name} USING vss0(point({size}))` and `CREATE TABLE IF NOT EXISTS
{name}_payload ...` in one batch.  Because of IF NOT EXISTS, an existing
collection is left untouched and the call still returns Ok. -/
def create_collections (db : Database) (name : String) (size : Nat) :
    Database × Except SqlErr Unit :=
  match lookupColl db name with
  | some _ => (db, .ok ())
  | none => (db ++ [(name, ⟨size, [], []⟩)], .ok ())

/-- store.rs `get_collections_info`: `SELECT COUNT(*) FROM {name}`. -/
def get_collections_info (c : Collection) : Except SqlErr Nat :=
  .ok c.vtab.length

/-- One iteration of the add_point loop body: the vector INSERT into the vss0
table followed by the payload INSERT OR REPLACE.  Modelled from the spec:
the vss0 virtual table (sqlite-vss extension) is not part of src/; per
section 4.3 re-inserting an id replaces its vector, and per section 4.2 a
vector whose length differs from the collection dimension is rejected with a
dimension-mismatch error before anything is written for that point. -/
def insertPoint (c : Collection) (p : Point) : Collection :=
  { c with
    vtab := upsertRow c.vtab p.id p.vector,
    ptab := upsertRow c.ptab p.id p.payload }

/-- store.rs `add_point`: iterates over the batch executing the two INSERT
statements per point.  There is no surrounding transaction: each statement
autocommits, so on an error the points already processed stay committed and
the Err is returned (the collected success ids are discarded). -/
def add_point : Collection → List Point → Collection × Except SqlErr (List Nat)
  | c, [] => (c, .ok [])
  | c, p :: rest =>
    if p.vector.length = c.dim then
      ((add_point (insertPoint c p) rest).1,
        match (add_point (insertPoint c p) rest).2 with
        | .ok ids => .ok (p.id :: ids)
        | .error e => .error e)
    else (c, .error .dimensionMismatch)

/-- store.rs `get_points` with a canonical result order (table scan order).
The ids are joined into `WHERE rowid in (...)`; an empty id list yields the
invalid SQL `in ()`, and conn.prepare(...).unwrap() panics on the Err.
Rows found in the vector table start with payload None; the payload query
then fills payloads in for ids that have a payload row. -/
def get_points (c : Collection) (ids : List Nat) : Outcome (List Point) :=
  if ids.isEmpty then .panicked .emptyInList
  else
    .ok ((c.vtab.filter (fun r => ids.contains r.1)).map
      (fun r => ⟨r.1, r.2, (lookupTab c.ptab r.1).getD none⟩))

/-- The set of results store.rs `get_points` may actually return: the rows of
the canonical result in an arbitrary order, because the Rust function drains
them from a std HashMap, whose iteration order is unspecified. -/
def get_points_rel (c : Collection) (ids : List Nat) (out : Outcome (List Point)) : Prop :=
  match get_points c ids with
  | .ok l => ∃ l2, out = .ok l2 ∧ List.Perm l2 l
  | o => out = o

/-- store.rs `get_point`: query_row on the vector table (Err(QueryReturnedNoRows)
if the id has no row), then query_row on the payload table. -/
def get_point (c : Collection) (i : Nat) : Except SqlErr Point :=
  match lookupTab c.vtab i with
  | none => .error .noRows
  | some v =>
    match lookupTab c.ptab i with
    | none => .error .noRows
    | some pl => .ok ⟨i, v, pl⟩

/-- Squared Euclidean distance, the score reported by the vss0 extension
(faiss reports squared L2 distances; the ordering is that of Euclidean
distance). -/
def sqDist (a b : Vec) : ℚ :=
  ((a.zip b).map (fun p => (p.1 - p.2) * (p.1 - p.2))).foldl (· + ·) 0

/-- Comparison used to model `ORDER BY distance`: ascending distance to the
query, ties broken by ascending rowid (the deterministic tie order of the
reference behavior). -/
def rowLe (q : Vec) (a b : Nat × Vec) : Bool :=
  if sqDist q a.2 < sqDist q b.2 then true
  else if sqDist q a.2 = sqDist q b.2 then decide (a.1 ≤ b.1)
  else false

/-- Insertion step of the distance sort. -/
def insertRowSorted (q : Vec) (a : Nat × Vec) : List (Nat × Vec) → List (Nat × Vec)
  | [] => [a]
  | b :: rest => if rowLe q a b then a :: b :: rest else b :: insertRowSorted q a rest

/-- Sort the table rows by ascending distance to the query. -/
def sortRows (q : Vec) : List (Nat × Vec) → List (Nat × Vec)
  | [] => []
  | a :: rest => insertRowSorted q a (sortRows q rest)

/-- store.rs `search_points` up to the final HashMap drain: the vss query
`WHERE vss_search(point, q) ORDER BY distance LIMIT k` in SQL row order.
Modelled from the spec: vss_search lives in the sqlite-vss extension, not in
src/; per section 4.3 it scores every indexed vector by Euclidean distance
and fails with a dimension mismatch when the query length differs from the
index dimension.  When the row set is empty (k = 0, or an empty collection),
the id list joined into the payload query is empty, the SQL `in ()` is
invalid and prepare returns an Err which `?` propagates. -/
def search_points_core (c : Collection) (q : Vec) (k : Nat) :
    Except SqlErr (List ScoredPoint) :=
  if q.length = c.dim then
    let rows := (sortRows q c.vtab).take k
    if rows.isEmpty then .error .emptyInList
    else
      .ok (rows.map
        (fun r => ⟨r.1, r.2, (lookupTab c.ptab r.1).getD none, sqDist q r.2⟩))
  else .error .dimensionMismatch

/-- The set of results store.rs `search_points` may actually return: the
scored rows of the SQL result in an arbitrary order, because the Rust
function drains them from a std HashMap, whose iteration order is
unspecified — the `ORDER BY distance` order is lost. -/
def search_points_rel (c : Collection) (q : Vec) (k : Nat)
    (out : Except SqlErr (List ScoredPoint)) : Prop :=
  match search_points_core c q k with
  | .ok l => ∃ l2, out = .ok l2 ∧ List.Perm l2 l
  | .error e => out = .error e

/-- store.rs `delete_points`: one batch `BEGIN; DELETE FROM {name} WHERE rowid
in (ids); DELETE FROM {name}_payload WHERE rowid in (ids); COMMIT;`.  An empty
id list makes both DELETE statements syntactically invalid, so the batch
fails with an Err before deleting anything. -/
def delete_points (c : Collection) (ids : List Nat) :
    Collection × Except SqlErr Unit :=
  if ids.isEmpty then (c, .error .emptyInList)
  else
    ({ c with vtab := deleteRows c.vtab ids, ptab := deleteRows c.ptab ids },
     .ok ())

/-- store.rs `delete_collection`: DROP TABLE IF EXISTS on both tables. -/
def delete_collection (db : Database) (name : String) :
    Database × Except SqlErr Unit :=
  (db.filter (fun r => !(r.1 == name)), .ok ())

/- ------------------------------------------------------------------ -/
/- The HTTP layer of service.rs: the response envelope per handler.    -/
/- ------------------------------------------------------------------ -/

/-- service.rs `APIResult`: the response envelope `{result, status, error}`. -/
structure APIResult (α : Type) where
  result : α
  status : Option String
  error : Option String

/-- The error message string rendered into a response envelope. -/
def SqlErr.message : SqlErr → String
  | .dimensionMismatch => "Error inserting data into vss table: dimension mismatch"
  | .emptyInList => "SQL logic error near the empty IN list"
  | .noRows => "Query returned no rows"

/-- rusqlite `.optional()`: converts Err(QueryReturnedNoRows) to Ok(None). -/
def optionalize {α : Type} : Except SqlErr α → Except SqlErr (Option α)
  | .ok a => .ok (some a)
  | .error .noRows => .ok none
  | .error e => .error e

/-- service.rs `create_collections` handler: status code and envelope. -/
def create_collections_response (r : Except SqlErr Unit) : Nat × APIResult Bool :=
  match r with
  | .error e => (409, ⟨false, none, some e.message⟩)
  | .ok _ => (200, ⟨true, some "ok", none⟩)

/-- service.rs `get_collections_info` handler. -/
def get_collections_info_response (r : Except SqlErr Nat) : Nat × APIResult Nat :=
  match r with
  | .ok n => (200, ⟨n, some "ok", none⟩)
  | .error e => (500, ⟨0, none, some e.message⟩)

/-- service.rs `add_points` handler. -/
def add_points_response (r : Except SqlErr (List Nat)) :
    Nat × APIResult (Option (List Nat)) :=
  match r with
  | .ok ids => (200, ⟨some ids, some "ok", none⟩)
  | .error e => (500, ⟨none, none, some e.message⟩)

/-- service.rs `get_points` handler (applies `.optional()` to the store
result). -/
def get_points_response (r : Except SqlErr (List Point)) :
    Nat × APIResult (Option (List Point)) :=
  match optionalize r with
  | .ok (some pts) => (200, ⟨some pts, some "ok", none⟩)
  | .ok none => (200, ⟨some [], some "ok", none⟩)
  | .error e => (500, ⟨none, none, some e.message⟩)

/-- service.rs `get_point` handler: 404 with an error message when the point
is absent. -/
def get_point_response (point_id : Nat) (r : Except SqlErr Point) :
    Nat × APIResult (Option Point) :=
  match optionalize r with
  | .ok (some p) => (200, ⟨some p, some "ok", none⟩)
  | .ok none =>
    (404, ⟨none, none,
      some ("Not found: Point with id " ++ toString point_id ++ " does not exists")⟩)
  | .error e => (500, ⟨none, none, some e.message⟩)

/-- service.rs `search_points` handler. -/
def search_points_response (r : Except SqlErr (List ScoredPoint)) :
    Nat × APIResult (Option (List ScoredPoint)) :=
  match optionalize r with
  | .ok (some pts) => (200, ⟨some pts, some "ok", none⟩)
  | .ok none => (200, ⟨some [], some "ok", none⟩)
  | .error e => (500, ⟨none, none, some e.message⟩)

/-- service.rs `delete_points` handler. -/
def delete_points_response (r : Except SqlErr Unit) : Nat × APIResult Bool :=
  match r with
  | .ok _ => (200, ⟨true, some "ok", none⟩)
  | .error e => (500, ⟨false, none, some e.message⟩)

/-- service.rs `delete_collection` handler. -/
def delete_collection_response (r : Except SqlErr Unit) : Nat × APIResult Bool :=
  match r with
  | .ok _ => (200, ⟨true, some "ok", none⟩)
  | .error e => (500, ⟨false, none, some e.message⟩)

/-- A well-formed response: on the success path status is Some ("ok") and
error is None with HTTP 200; on every failure path status is None and error
is Some with a non-200 code. -/
def responseWF {α : Type} (resp : Nat × APIResult α) : Prop :=
  (resp.2.status = some "ok" ∧ resp.2.error = none ∧ resp.1 = 200) ∨
  (resp.2.status = none ∧ (resp.2.error).isSome = true ∧ resp.1 ≠ 200)

/- ------------------------------------------------------------------ -/
/- Helper lemmas about the keyed-table operations.                     -/
/- ------------------------------------------------------------------ -/

/-- Looking up the key just written returns the value just written. -/
theorem lookupTab_upsertRow_self {α : Type} (tab : List (Nat × α)) (i : Nat) (v : α) :
    lookupTab (upsertRow tab i v) i = some v := by
  induction tab with
  | nil => simp [upsertRow, lookupTab]
  | cons r rest ih =>
    by_cases h : r.1 = i
    · simp [upsertRow, h, lookupTab]
    · simp [upsertRow, h, lookupTab, ih]

/-- A row of an upserted table is an old row or the row just written. -/
theorem mem_upsertRow {α : Type} {tab : List (Nat × α)} {i : Nat} {v : α} {r : Nat × α}
    (h : r ∈ upsertRow tab i v) : r ∈ tab ∨ r = (i, v) := by
  induction tab with
  | nil => simpa [upsertRow] using h
  | cons s rest ih =>
    by_cases hs : s.1 = i
    · simp only [upsertRow, hs, if_pos] at h
      rcases List.mem_cons.mp h with h1 | h1
      · exact Or.inr (by simpa [hs] using h1)
      · exact Or.inl (List.mem_cons_of_mem _ h1)
    · simp only [upsertRow, hs, if_neg, not_false_iff] at h
      rcases List.mem_cons.mp h with h1 | h1
      · exact Or.inl (h1 ▸ List.mem_cons_self _ _)
      · rcases ih h1 with h2 | h2
        · exact Or.inl (List.mem_cons_of_mem _ h2)
        · exact Or.inr h2

/-- The key sequence produced by an upsert: unchanged when the key was
present, the key appended when it was not. -/
def keyInsert (ks : List Nat) (i : Nat) : List Nat :=
  if ks.contains i then ks else ks ++ [i]

/-- `a ∈ l` as a `contains` fact. -/
theorem contains_eq_true_of_mem {a : Nat} {l : List Nat} (h : a ∈ l) :
    l.contains a = true := by
  simpa using h

/-- Upserting affects the key column of a table the same way regardless of
the value column. -/
theorem keys_upsertRow {α : Type} (tab : List (Nat × α)) (i : Nat) (v : α) :
    (upsertRow tab i v).map Prod.fst = keyInsert (tab.map Prod.fst) i := by
  induction tab with
  | nil => simp [upsertRow, keyInsert]
  | cons r rest ih =>
    by_cases h : r.1 = i
    · simp [upsertRow, h, keyInsert, List.contains_cons]
    · have h2 : (i == r.1) = false := by
        simp [Ne.symm h]
      simp only [upsertRow, h, if_neg, not_false_iff, List.map_cons, ih, keyInsert,
        List.contains_cons, h2, Bool.false_or]
      by_cases h3 : (rest.map Prod.fst).contains i = true
      · rw [if_pos h3, if_pos h3]
      · rw [if_neg h3, if_neg h3, List.cons_append]

/-- A deleted key is gone from the table. -/
theorem lookupTab_deleteRows_of_mem {α : Type} (tab : List (Nat × α))
    (ids : List Nat) (i : Nat) (h : i ∈ ids) :
    lookupTab (deleteRows tab ids) i = none := by
  induction tab with
  | nil => rfl
  | cons r rest ih =>
    by_cases hr : r.1 ∈ ids
    · simp [deleteRows, hr, ih]
    · have hri : ¬ r.1 = i := fun he => hr (he ▸ h)
      simp [deleteRows, hr, lookupTab, hri, ih]

/-- A row surviving a delete does not have a deleted key. -/
theorem not_mem_ids_of_mem_deleteRows {α : Type} {tab : List (Nat × α)}
    {ids : List Nat} {r : Nat × α} (h : r ∈ deleteRows tab ids) : r.1 ∉ ids := by
  induction tab with
  | nil => cases h
  | cons s rest ih =>
    by_cases hs : s.1 ∈ ids
    · exact ih (by simpa [deleteRows, hs] using h)
    · rcases List.mem_cons.mp (by simpa [deleteRows, hs] using h) with h1 | h1
      · rw [h1]; exact hs
      · exact ih h1

/-- No row with a deleted key survives a delete: filtering the deleted table
back to the deleted keys yields nothing. -/
theorem deleteRows_filter_contains {α : Type} (tab : List (Nat × α)) (ids : List Nat) :
    (deleteRows tab ids).filter (fun r => ids.contains r.1) = [] := by
  simp only [List.filter_eq_nil_iff]
  intro r hr
  simpa using not_mem_ids_of_mem_deleteRows hr

/-- Deleting preserves the key/key correspondence of the two tables only via
keys; here: one insertPoint keeps the vector and payload key columns equal. -/
theorem insertPoint_keys (c : Collection) (p : Point)
    (h : c.vtab.map Prod.fst = c.ptab.map Prod.fst) :
    (insertPoint c p).vtab.map Prod.fst = (insertPoint c p).ptab.map Prod.fst := by
  simp [insertPoint, keys_upsertRow, h]

/-- Folding a batch of inserts keeps the vector and payload key columns
equal. -/
theorem foldl_insertPoint_keys (pts : List Point) (c : Collection)
    (h : c.vtab.map Prod.fst = c.ptab.map Prod.fst) :
    ((pts.foldl insertPoint c).vtab.map Prod.fst =
      (pts.foldl insertPoint c).ptab.map Prod.fst) := by
  induction pts generalizing c with
  | nil => exact h
  | cons p rest ih => exact ih _ (insertPoint_keys c p h)

/-- The state add_point leaves behind: exactly the points before the first
invalid one are committed (each point autocommits; there is no enclosing
transaction). -/
theorem add_point_state_eq (c : Collection) (pts : List Point) :
    (add_point c pts).1 =
      ((pts.takeWhile fun p => p.vector.length == c.dim).foldl insertPoint c) := by
  induction pts generalizing c with
  | nil => simp [add_point]
  | cons p rest ih =>
    by_cases h : p.vector.length = c.dim
    · have hb : (p.vector.length == c.dim) = true := beq_iff_eq.mpr h
      simp only [add_point]
      rw [if_pos h]
      simp only [List.takeWhile_cons, hb, eq_self_iff_true, if_true, List.foldl_cons]
      exact ih (insertPoint c p)
    · have hb : (p.vector.length == c.dim) = false := by
        simp [h]
      simp [add_point, h, List.takeWhile_cons, hb]

/-- If some point of the batch has the wrong vector length, add_point
returns the dimension-mismatch error. -/
theorem add_point_err_of_all_eq_false (c : Collection) (pts : List Point)
    (h : pts.all (fun p => p.vector.length == c.dim) = false) :
    (add_point c pts).2 = .error .dimensionMismatch := by
  induction pts generalizing c with
  | nil => simp at h
  | cons p rest ih =>
    by_cases hp : p.vector.length = c.dim
    · have hb : (p.vector.length == c.dim) = true := beq_iff_eq.mpr hp
      have hrest : rest.all (fun p => p.vector.length == c.dim) = false := by
        simpa [List.all_cons, hb] using h
      have h2 := ih (insertPoint c p) (by simpa [insertPoint] using hrest)
      simp only [add_point]
      rw [if_pos hp, h2]
    · simp [add_point, hp]

/-- A successful singleton upsert: the state is one insertPoint and the
returned id list is the point's id. -/
theorem add_point_singleton (c : Collection) (p : Point)
    (hlen : p.vector.length = c.dim) :
    add_point c [p] = (insertPoint c p, .ok [p.id]) := by
  simp [add_point, hlen]

/-- Every vector stored after an add_point call either was already stored or
has the collection's declared length: nothing is ever truncated or padded. -/
theorem add_point_vtab_valid (c : Collection) (pts : List Point)
    (hinv : ∀ r ∈ c.vtab, r.2.length = c.dim) :
    ∀ r ∈ (add_point c pts).1.vtab, r.2.length = c.dim := by
  rw [add_point_state_eq]
  have hgen : ∀ (l : List Point) (c2 : Collection), c2.dim = c.dim →
      (∀ p ∈ l, p.vector.length = c.dim) →
      (∀ r ∈ c2.vtab, r.2.length = c.dim) →
      ∀ r ∈ (l.foldl insertPoint c2).vtab, r.2.length = c.dim := by
    intro l
    induction l with
    | nil => intro c2 _ _ hc2 r hr; exact hc2 r hr
    | cons p rest ih =>
      intro c2 hdim hl hc2 r hr
      refine ih (insertPoint c2 p) hdim (fun x hx => hl x (List.mem_cons_of_mem _ hx)) ?_ r hr
      intro s hs
      rcases mem_upsertRow hs with h1 | h1
      · exact hc2 s h1
      · rw [h1]
        exact hl p (List.mem_cons_self _ _)
  refine hgen _ c rfl ?_ hinv
  intro p hp
  have h4 := List.mem_takeWhile_imp hp
  exact beq_iff_eq.mp h4

/- ------------------------------------------------------------------ -/
/- The reference fixture of the repository tests.                      -/
/- ------------------------------------------------------------------ -/

/-- The six fixture points of store.rs test_points_search. -/
def fixturePoints : List Point :=
  [⟨1, [0.05, 0.61, 0.76, 0.74], some [("city", "Berlin")]⟩,
   ⟨2, [0.19, 0.81, 0.75, 0.11], some [("city", "London")]⟩,
   ⟨3, [0.36, 0.55, 0.47, 0.94], some [("city", "Moscow")]⟩,
   ⟨4, [0.18, 0.01, 0.85, 0.80], some [("city", "New York")]⟩,
   ⟨5, [0.24, 0.18, 0.22, 0.44], some [("city", "Beijing")]⟩,
   ⟨6, [0.35, 0.08, 0.11, 0.44], some [("city", "Mumbai")]⟩]

/-- The dimension-4 fixture collection holding ids 1..6. -/
def fixtureCollection : Collection :=
  (add_point ⟨4, [], []⟩ fixturePoints).1

/-- The query vector of the reference search scenario. -/
def queryVec : Vec := [0.2, 0.1, 0.9, 0.7]

/-- The nearest fixture point to the query: id 4, New York. -/
def spNewYork : ScoredPoint :=
  ⟨4, [0.18, 0.01, 0.85, 0.80], some [("city", "New York")], 0.021⟩

/-- The second-nearest fixture point to the query: id 1, Berlin. -/
def spBerlin : ScoredPoint :=
  ⟨1, [0.05, 0.61, 0.76, 0.74], some [("city", "Berlin")], 0.3038⟩

/-- Evaluating the test setup: upserting the six fixture points into a fresh
dimension-4 collection succeeds and reports the ids in the order provided. -/
theorem fixture_insert_ok : (add_point ⟨4, [], []⟩ fixturePoints).2 = .ok [1, 2, 3, 4, 5, 6] := by
  norm_num [add_point, insertPoint, upsertRow, fixturePoints]

/-- Evaluating the SQL part of the reference search: the two nearest points
are id 4 (New York) then id 1 (Berlin), in ascending distance order. -/
theorem fixture_search_core_eval :
    search_points_core fixtureCollection queryVec 2 = .ok [spNewYork, spBerlin] := by
  norm_num [search_points_core, fixtureCollection, fixturePoints, add_point, insertPoint,
    upsertRow, sortRows, insertRowSorted, rowLe, lookupTab, sqDist, queryVec,
    spNewYork, spBerlin]

/-- Evaluating the search with k = 0: the LIMIT 0 query returns no rows, the
payload join SQL degenerates to the invalid `IN ()` and the call errors. -/
theorem fixture_search_zero_eval :
    search_points_core fixtureCollection queryVec 0 = .error .emptyInList := by
  norm_num [search_points_core, fixtureCollection, fixturePoints, add_point, insertPoint,
    upsertRow, sortRows, insertRowSorted, rowLe, sqDist, queryVec]

/- ------------------------------------------------------------------ -/
/- Claim theorems.                                                     -/
/- ------------------------------------------------------------------ -/

/-- C1: evaluating search_points of store.rs at the reference fixture with
k = 0 — instead of the empty sequence the claim requires, the call returns a
storage error, because the empty result set makes the payload-join SQL an
invalid `IN ()`; this is the only outcome even accounting for the HashMap
nondeterminism. -/
theorem search_empty_result_errors :
    search_points_core fixtureCollection queryVec 0 = .error .emptyInList ∧
    search_points_rel fixtureCollection queryVec 0 (.error .emptyInList) := by
  refine ⟨fixture_search_zero_eval, ?_⟩
  unfold search_points_rel
  rw [fixture_search_zero_eval]

/-- C2: at the reference fixture with query [0.2,0.1,0.9,0.7] and k = 2 the
SQL part of the search does produce ids 4 then 1 in ascending distance order
(scores 0.021 and 0.3038), but store.rs then drains the rows from a HashMap,
so the reversed order [1, 4] is also an admissible result of search_points:
the exact order [4, 1] the claim requires is not guaranteed. -/
theorem fixture_search_order_not_guaranteed :
    search_points_core fixtureCollection queryVec 2 = .ok [spNewYork, spBerlin] ∧
    search_points_rel fixtureCollection queryVec 2 (.ok [spBerlin, spNewYork]) ∧
    spNewYork.id = 4 ∧ spBerlin.id = 1 ∧ spNewYork.score < spBerlin.score := by
  refine ⟨fixture_search_core_eval, ?_, rfl, rfl, by norm_num [spNewYork, spBerlin]⟩
  unfold search_points_rel
  rw [fixture_search_core_eval]
  exact ⟨[spBerlin, spNewYork], rfl, List.Perm.swap spNewYork spBerlin []⟩

/-- A database already holding a collection named c, with one point. -/
def dbWithC : Database := [("c", ⟨4, [(1, [0.5, 0.5, 0.5, 0.5])], [(1, none)]⟩)]

/-- C3 counterexample: creating a collection whose name already exists does
not fail with AlreadyExists — the CREATE ... IF NOT EXISTS statements make
the call succeed and leave the database unchanged (even with a different
requested dimension). -/
theorem create_existing_succeeds_unchanged :
    create_collections dbWithC "c" 8 = (dbWithC, .ok ()) := by
  simp [create_collections, lookupColl, dbWithC]

/-- C3 (amended): for every state in which a collection with the given name
already exists, create(name, dimension) succeeds as an idempotent no-op and
leaves the whole database (in particular the existing collection) unchanged;
no AlreadyExists conflict is reported. -/
theorem create_collections_existing_noop (db : Database) (name : String) (size : Nat)
    (h : (lookupColl db name).isSome = true) :
    create_collections db name size = (db, .ok ()) := by
  cases hl : lookupColl db name with
  | some c => simp [create_collections, hl]
  | none => rw [hl] at h; simp at h

/-- A database already holding a collection named d. -/
def dbWithD : Database := [("d", ⟨2, [(5, [0.5, 0.5])], [(5, some [("k", "v")])]⟩)]

/-- C3 witness: the no-op behavior at a concrete database. -/
theorem create_collections_existing_noop_witness :
    (lookupColl dbWithD "d").isSome = true ∧
    create_collections dbWithD "d" 9 = (dbWithD, .ok ()) :=
  ⟨by simp [lookupColl, dbWithD],
   create_collections_existing_noop dbWithD "d" 9 (by simp [lookupColl, dbWithD])⟩

/-- C4: a batch containing a point whose vector length differs from the
collection dimension makes add_point fail with the dimension-mismatch error,
and no vector of the wrong length is ever stored (nothing is truncated or
padded); a search whose query length differs from the dimension fails with
the dimension-mismatch error as well. -/
theorem dimension_mismatch_fails (c : Collection) (pts : List Point) (q : Vec) (k : Nat)
    (hbad : ∃ p ∈ pts, p.vector.length ≠ c.dim)
    (hq : q.length ≠ c.dim)
    (hinv : ∀ r ∈ c.vtab, r.2.length = c.dim) :
    (add_point c pts).2 = .error .dimensionMismatch ∧
    (∀ r ∈ (add_point c pts).1.vtab, r.2.length = c.dim) ∧
    search_points_core c q k = .error .dimensionMismatch := by
  refine ⟨?_, add_point_vtab_valid c pts hinv, ?_⟩
  · apply add_point_err_of_all_eq_false
    rw [List.all_eq_false]
    obtain ⟨p, hp, hlen⟩ := hbad
    exact ⟨p, hp, by simp [hlen]⟩
  · simp [search_points_core, hq]

/-- A dimension-2 collection with one stored point. -/
def cDim2 : Collection := ⟨2, [(7, [0.5, 0.5])], [(7, none)]⟩

/-- A batch whose second point has the wrong vector length. -/
def ptsBad : List Point := [⟨8, [0.25, 0.75], none⟩, ⟨9, [0.25], none⟩]

/-- A query vector of the wrong length for cDim2. -/
def qBad : Vec := [0.25]

/-- C4 witness: the dimension-mismatch failures at concrete inputs. -/
theorem dimension_mismatch_fails_witness :
    (∃ p ∈ ptsBad, p.vector.length ≠ cDim2.dim) ∧ qBad.length ≠ cDim2.dim ∧
    (∀ r ∈ cDim2.vtab, r.2.length = cDim2.dim) ∧
    ((add_point cDim2 ptsBad).2 = .error .dimensionMismatch ∧
     (∀ r ∈ (add_point cDim2 ptsBad).1.vtab, r.2.length = cDim2.dim) ∧
     search_points_core cDim2 qBad 3 = .error .dimensionMismatch) :=
  ⟨by decide, by decide, by decide,
   dimension_mismatch_fails cDim2 ptsBad qBad 3 (by decide) (by decide) (by decide)⟩

/-- An empty dimension-1 collection. -/
def cEmptyDim1 : Collection := ⟨1, [], []⟩

/-- A batch whose first point is valid and whose second has the wrong
vector length. -/
def batchPartial : List Point := [⟨1, [0.5], none⟩, ⟨2, [], none⟩]

/-- C5 counterexample: upsert of a batch is not atomic — on this concrete
batch the call fails with the dimension-mismatch error, yet the first point
of the batch is observable afterwards (both its vector row and its payload
row are present), although the collection was empty before. -/
theorem add_point_partial_commit :
    (add_point cEmptyDim1 batchPartial).2 = .error .dimensionMismatch ∧
    (add_point cEmptyDim1 batchPartial).1.vtab = [(1, [0.5])] ∧
    (add_point cEmptyDim1 batchPartial).1.ptab = [(1, none)] ∧
    cEmptyDim1.vtab = [] ∧ cEmptyDim1.ptab = [] :=
  ⟨rfl, rfl, rfl, rfl, rfl⟩

/-- C5 (amended): upsert of a batch is not atomic across the batch: each
point autocommits, so when the operation fails, exactly the points before
the first invalid one remain committed and the error is returned.  Vector
and payload of one point are still always written together, so the key
columns of the two tables stay equal — no state has a vector without its
payload or vice versa. -/
theorem add_point_commits_valid_head (c : Collection) (pts : List Point)
    (hbad : pts.all (fun p => p.vector.length == c.dim) = false)
    (hkeys : c.vtab.map Prod.fst = c.ptab.map Prod.fst) :
    (add_point c pts).2 = .error .dimensionMismatch ∧
    (add_point c pts).1 =
      ((pts.takeWhile fun p => p.vector.length == c.dim).foldl insertPoint c) ∧
    (add_point c pts).1.vtab.map Prod.fst = (add_point c pts).1.ptab.map Prod.fst := by
  refine ⟨add_point_err_of_all_eq_false c pts hbad, add_point_state_eq c pts, ?_⟩
  rw [add_point_state_eq]
  exact foldl_insertPoint_keys _ c hkeys

/-- C5 witness: the prefix-commit behavior at a concrete batch. -/
theorem add_point_commits_valid_head_witness :
    (batchPartial.all (fun p => p.vector.length == cEmptyDim1.dim) = false) ∧
    (cEmptyDim1.vtab.map Prod.fst = cEmptyDim1.ptab.map Prod.fst) ∧
    ((add_point cEmptyDim1 batchPartial).2 = .error .dimensionMismatch ∧
     (add_point cEmptyDim1 batchPartial).1 =
       ((batchPartial.takeWhile fun p => p.vector.length == cEmptyDim1.dim).foldl
         insertPoint cEmptyDim1) ∧
     (add_point cEmptyDim1 batchPartial).1.vtab.map Prod.fst =
       (add_point cEmptyDim1 batchPartial).1.ptab.map Prod.fst) :=
  ⟨by decide, rfl, add_point_commits_valid_head cEmptyDim1 batchPartial (by decide) rfl⟩

/-- C6: upserting a point whose id is already present succeeds and replaces
both the stored vector and the stored payload; afterwards both lookups and
getOne observe only the new values. -/
theorem reupsert_replaces (c : Collection) (p : Point) (w : Vec) (pl : Option PayloadMap)
    (hv : lookupTab c.vtab p.id = some w)
    (hp : lookupTab c.ptab p.id = some pl)
    (hlen : p.vector.length = c.dim) :
    (add_point c [p]).2 = .ok [p.id] ∧
    lookupTab (add_point c [p]).1.vtab p.id = some p.vector ∧
    lookupTab (add_point c [p]).1.ptab p.id = some p.payload ∧
    get_point (add_point c [p]).1 p.id = .ok ⟨p.id, p.vector, p.payload⟩ := by
  rw [add_point_singleton c p hlen]
  refine ⟨rfl, ?_, ?_, ?_⟩
  · exact lookupTab_upsertRow_self c.vtab p.id p.vector
  · exact lookupTab_upsertRow_self c.ptab p.id p.payload
  · simp [get_point, insertPoint, lookupTab_upsertRow_self]

/-- A dimension-2 collection holding a point with id 7 (old vector and
payload). -/
def cWith7 : Collection := ⟨2, [(7, [0.5, 0.5])], [(7, some [("city", "Berlin")])]⟩

/-- A replacement point with id 7: new vector and new payload. -/
def p7new : Point := ⟨7, [0.25, 0.75], some [("city", "Paris")]⟩

/-- C6 witness: the replacement behavior at a concrete collection. -/
theorem reupsert_replaces_witness :
    lookupTab cWith7.vtab p7new.id = some [0.5, 0.5] ∧
    lookupTab cWith7.ptab p7new.id = some (some [("city", "Berlin")]) ∧
    p7new.vector.length = cWith7.dim ∧
    ((add_point cWith7 [p7new]).2 = .ok [p7new.id] ∧
     lookupTab (add_point cWith7 [p7new]).1.vtab p7new.id = some p7new.vector ∧
     lookupTab (add_point cWith7 [p7new]).1.ptab p7new.id = some p7new.payload ∧
     get_point (add_point cWith7 [p7new]).1 p7new.id =
       .ok ⟨p7new.id, p7new.vector, p7new.payload⟩) :=
  ⟨rfl, rfl, rfl,
   reupsert_replaces cWith7 p7new [0.5, 0.5] (some [("city", "Berlin")]) rfl rfl rfl⟩

/-- C7: for every point with a vector of the collection dimension and any
optional payload, upsert followed by getOne returns a Point with exactly the
same vector and the same payload (an absent payload stays none and is
distinct from an empty mapping, since the payload is compared as an
Option). -/
theorem upsert_getOne_roundtrip (c : Collection) (p : Point)
    (hlen : p.vector.length = c.dim) :
    (add_point c [p]).2 = .ok [p.id] ∧
    get_point (add_point c [p]).1 p.id = .ok ⟨p.id, p.vector, p.payload⟩ := by
  rw [add_point_singleton c p hlen]
  exact ⟨rfl, by simp [get_point, insertPoint, lookupTab_upsertRow_self]⟩

/-- An empty dimension-3 collection. -/
def cDim3 : Collection := ⟨3, [], []⟩

/-- A point carrying an explicitly empty payload mapping. -/
def pRound : Point := ⟨11, [0.125, 0.25, 0.5], some []⟩

/-- C7 witness: the round trip at a concrete point whose payload is the
empty mapping (which round-trips as some [], not none). -/
theorem upsert_getOne_roundtrip_witness :
    pRound.vector.length = cDim3.dim ∧
    ((add_point cDim3 [pRound]).2 = .ok [pRound.id] ∧
     get_point (add_point cDim3 [pRound]).1 pRound.id =
       .ok ⟨pRound.id, pRound.vector, pRound.payload⟩) :=
  ⟨rfl, upsert_getOne_roundtrip cDim3 pRound rfl⟩

/-- A get over rows none of which match yields the empty result. -/
theorem get_points_deleted (c2 : Collection) (ids : List Nat)
    (hne : ids.isEmpty = false)
    (hf : c2.vtab.filter (fun r => ids.contains r.1) = []) :
    get_points c2 ids = .ok [] := by
  unfold get_points
  rw [hne, if_neg (by simp), hf]
  rfl

/-- C8: for every non-empty id list, delete succeeds (ids not present are
silently ignored), removes both the vector and the payload of every listed
id, and a subsequent getMany of the same ids returns the empty sequence —
under every iteration order the HashMap drain may produce. -/
theorem delete_then_getMany_empty (c : Collection) (ids : List Nat) (h : ids ≠ []) :
    (delete_points c ids).2 = .ok () ∧
    (∀ i ∈ ids, lookupTab (delete_points c ids).1.vtab i = none ∧
                lookupTab (delete_points c ids).1.ptab i = none) ∧
    get_points (delete_points c ids).1 ids = .ok [] ∧
    (∀ out, get_points_rel (delete_points c ids).1 ids out → out = .ok []) := by
  have hne : ids.isEmpty = false := by
    cases ids with
    | nil => exact absurd rfl h
    | cons a t => rfl
  have hst : delete_points c ids =
      ({ c with vtab := deleteRows c.vtab ids, ptab := deleteRows c.ptab ids },
       .ok ()) := by
    simp [delete_points, hne]
  rw [hst]
  have hget := get_points_deleted
    { c with vtab := deleteRows c.vtab ids, ptab := deleteRows c.ptab ids } ids hne
    (deleteRows_filter_contains c.vtab ids)
  refine ⟨rfl, ?_, hget, ?_⟩
  · intro i hi
    exact ⟨lookupTab_deleteRows_of_mem _ _ _ hi, lookupTab_deleteRows_of_mem _ _ _ hi⟩
  · intro out hrel
    unfold get_points_rel at hrel
    rw [hget] at hrel
    have hrel2 : ∃ l2, out = Outcome.ok l2 ∧ l2.Perm [] := hrel
    obtain ⟨l2, rfl, hperm⟩ := hrel2
    rw [List.Perm.eq_nil hperm]

/-- A dimension-2 collection holding two points. -/
def cTwoPoints : Collection :=
  ⟨2, [(1, [0.5, 0.5]), (2, [0.25, 0.25])], [(1, none), (2, some [("k", "v")])]⟩

/-- C8 witness: deleting ids 1 and 9 (9 not present) then getting them back. -/
theorem delete_then_getMany_empty_witness :
    ([1, 9] ≠ ([] : List Nat)) ∧
    ((delete_points cTwoPoints [1, 9]).2 = .ok () ∧
     (∀ i ∈ [1, 9], lookupTab (delete_points cTwoPoints [1, 9]).1.vtab i = none ∧
                    lookupTab (delete_points cTwoPoints [1, 9]).1.ptab i = none) ∧
     get_points (delete_points cTwoPoints [1, 9]).1 [1, 9] = .ok [] ∧
     (∀ out, get_points_rel (delete_points cTwoPoints [1, 9]).1 [1, 9] out →
       out = .ok [])) :=
  ⟨by decide, delete_then_getMany_empty cTwoPoints [1, 9] (by decide)⟩

/-- C9: every response envelope any handler of service.rs produces has
exactly one of status and error populated: status = some "ok" with error =
none and HTTP 200 on every success path, status = none with error populated
and a non-200 code on every failure path. -/
theorem responses_follow_envelope :
    (∀ r : Except SqlErr Unit, responseWF (create_collections_response r)) ∧
    (∀ r : Except SqlErr Nat, responseWF (get_collections_info_response r)) ∧
    (∀ r : Except SqlErr (List Nat), responseWF (add_points_response r)) ∧
    (∀ r : Except SqlErr (List Point), responseWF (get_points_response r)) ∧
    (∀ (i : Nat) (r : Except SqlErr Point), responseWF (get_point_response i r)) ∧
    (∀ r : Except SqlErr (List ScoredPoint), responseWF (search_points_response r)) ∧
    (∀ r : Except SqlErr Unit, responseWF (delete_points_response r)) ∧
    (∀ r : Except SqlErr Unit, responseWF (delete_collection_response r)) := by
  refine ⟨?_, ?_, ?_, ?_, ?_, ?_, ?_, ?_⟩
  · intro r
    cases r with
    | ok a => exact Or.inl ⟨rfl, rfl, rfl⟩
    | error e => exact Or.inr ⟨rfl, rfl, (by decide : (409 : Nat) ≠ 200)⟩
  · intro r
    cases r with
    | ok a => exact Or.inl ⟨rfl, rfl, rfl⟩
    | error e => exact Or.inr ⟨rfl, rfl, (by decide : (500 : Nat) ≠ 200)⟩
  · intro r
    cases r with
    | ok a => exact Or.inl ⟨rfl, rfl, rfl⟩
    | error e => exact Or.inr ⟨rfl, rfl, (by decide : (500 : Nat) ≠ 200)⟩
  · intro r
    cases r with
    | ok a => exact Or.inl ⟨rfl, rfl, rfl⟩
    | error e =>
      cases e with
      | noRows => exact Or.inl ⟨rfl, rfl, rfl⟩
      | dimensionMismatch => exact Or.inr ⟨rfl, rfl, (by decide : (500 : Nat) ≠ 200)⟩
      | emptyInList => exact Or.inr ⟨rfl, rfl, (by decide : (500 : Nat) ≠ 200)⟩
  · intro i r
    cases r with
    | ok a => exact Or.inl ⟨rfl, rfl, rfl⟩
    | error e =>
      cases e with
      | noRows => exact Or.inr ⟨rfl, rfl, (by decide : (404 : Nat) ≠ 200)⟩
      | dimensionMismatch => exact Or.inr ⟨rfl, rfl, (by decide : (500 : Nat) ≠ 200)⟩
      | emptyInList => exact Or.inr ⟨rfl, rfl, (by decide : (500 : Nat) ≠ 200)⟩
  · intro r
    cases r with
    | ok a => exact Or.inl ⟨rfl, rfl, rfl⟩
    | error e =>
      cases e with
      | noRows => exact Or.inl ⟨rfl, rfl, rfl⟩
      | dimensionMismatch => exact Or.inr ⟨rfl, rfl, (by decide : (500 : Nat) ≠ 200)⟩
      | emptyInList => exact Or.inr ⟨rfl, rfl, (by decide : (500 : Nat) ≠ 200)⟩
  · intro r
    cases r with
    | ok a => exact Or.inl ⟨rfl, rfl, rfl⟩
    | error e => exact Or.inr ⟨rfl, rfl, (by decide : (500 : Nat) ≠ 200)⟩
  · intro r
    cases r with
    | ok a => exact Or.inl ⟨rfl, rfl, rfl⟩
    | error e => exact Or.inr ⟨rfl, rfl, (by decide : (500 : Nat) ≠ 200)⟩

/-- A dimension-4 collection with one stored point, for the empty-id calls. -/
def cOnePoint4 : Collection := ⟨4, [(3, [0.5, 0.5, 0.5, 0.5])], [(3, none)]⟩

/-- C10 counterexample: getMany with an empty id list does not fail with a
storage error result — it panics (store.rs unwraps the prepare Err of the
invalid `IN ()` SQL), so the outcome is a panic, not an Err. -/
theorem getMany_empty_ids_panics :
    get_points cOnePoint4 [] = .panicked .emptyInList ∧
    (get_points cOnePoint4 []).isStoreErr = false :=
  ⟨rfl, rfl⟩

/-- C10 (amended): for every collection, calling the point operations with an
empty id list fails rather than returning an empty sequence or succeeding as
a no-op: delete returns the storage error of the invalid `IN ()` SQL (and
changes nothing), while getMany panics on the unwrapped prepare error. -/
theorem empty_ids_operations_fail (c : Collection) :
    delete_points c [] = (c, .error .emptyInList) ∧
    get_points c [] = .panicked .emptyInList :=
  ⟨rfl, rfl⟩

end VecStore
